import Mathlib

/-!
Verification development for the despicable-me ingestion/search repository.

The repository embeds text via a remote inference endpoint and stores the
resulting vectors in a managed vector index.  The definitions below are a
shallow embedding of the pure decision logic of its Python sources:

* `normalizeLambda` — the response-shape normalization inside `get_embedding`
  of `ingest_s3vectors.py` (lines 45-53) and `search_s3vectors.py`
  (lines 43-51), where `embedding` is initialised to `None` and the `else`
  branch is attached to the outer `isinstance` test.
* `normalizeFile` — the same normalization as written in
  `ingest_from_file.py` (lines 52-57), `search_despicable_me.py` (lines
  40-45) and `test_despicable_me_docs.py` (lines 41-46), where every
  fall-through path returns the decoded result unchanged.
* `get_embedding` / `file_get_embedding` — the retry loops around the
  endpoint invocation, tracking the result, the sleeps performed and the
  number of remote attempts made.
* `put_vectors_loop`, `file_put_vector`, `query_vectors_call` — the vector
  store upsert/query wrappers with their fault classification.
* `module_init`, `effectiveK`, `formatLambdaResult`, `scriptSimilarity`,
  `ingest_lambda_handler`, `ingest_docs`, `storedMetadata` — the remaining
  handler logic the claims refer to.

Remote behaviour is modelled by oracles: a function from the attempt index
to the outcome of that remote call.  Python `None` is modelled by
`Option.none`; scalar JSON payloads are modelled as integers, since the
normalization logic only ever inspects whether a value is a list.
-/

/-- Decoded JSON value as far as the normalization logic inspects it:
a scalar (number, modelled as `Int`), a string, or a list. -/
inductive JVal where
  | num (n : Int)
  | str (s : String)
  | list (elems : List JVal)

/-- Normalization step of `get_embedding` in `ingest_s3vectors.py`
(lines 45-53) and `search_s3vectors.py` (lines 43-51):
`embedding = None`; if the result is a non-empty list whose first element is
a non-empty list, extract `result[0][0]` when that is a list, else
`result[0]`; the `else` branch (`embedding = result`) belongs to the OUTER
`if`, so a non-empty list whose first element is a scalar, or whose first
element is an empty list, leaves `embedding = None`. -/
def normalizeLambda (result : JVal) : Option JVal :=
  match result with
  | JVal.list (r0 :: _) =>
    match r0 with
    | JVal.list (r00 :: _) =>
      match r00 with
      | JVal.list _ => some r00
      | _ => some r0
    | _ => none
  | r => some r

/-- Normalization step of `get_embedding` in `ingest_from_file.py`
(lines 52-57), `search_despicable_me.py` (lines 40-45) and
`test_despicable_me_docs.py` (lines 41-46): the same nested
first-element tests, but every fall-through path executes
`return result`, so a flat list (or anything else unrecognised) is
returned unchanged. -/
def normalizeFile (result : JVal) : JVal :=
  match result with
  | JVal.list (r0 :: _) =>
    match r0 with
    | JVal.list (r00 :: _) =>
      match r00 with
      | JVal.list _ => r00
      | _ => r0
    | _ => result
  | _ => result

/-- Outcome of one `invoke_endpoint` remote call: a decoded response,
a `botocore.ClientError` carrying its error code, or some other exception. -/
inductive CallOutcome where
  | success (raw : JVal)
  | clientErr (code : String)
  | otherErr

/-- Result of `get_embedding`: the returned Python value (possibly `None`),
or the exception that escaped (the last `ClientError` re-raised after the
retry budget, or an unexpected exception re-raised immediately). -/
inductive EmbResult where
  | ok (emb : Option JVal)
  | clientRaised (code : String)
  | otherRaised

/-- Retry loop of `get_embedding` in `ingest_s3vectors.py` (lines 31-67)
and `search_s3vectors.py` (lines 29-66), with `attempts = 3` and
`delay = 1` at entry.  `remaining` counts the iterations the `for attempt
in range(attempts)` loop still has, so the Python guard
`attempt < attempts - 1` is `0 < remaining` after the current iteration is
peeled off.  Returns the result, the list of sleep durations performed, and
the number of remote attempts made.  A loop that runs out of iterations
without returning falls off the function, which in Python returns `None`. -/
def get_embedding_loop (oracle : Nat → CallOutcome) :
    Nat → Nat → Nat → EmbResult × List Nat × Nat
  | 0, _, _ => (EmbResult.ok none, [], 0)
  | remaining + 1, attempt, delay =>
    match oracle attempt with
    | CallOutcome.success raw => (EmbResult.ok (normalizeLambda raw), [], 1)
    | CallOutcome.clientErr code =>
      if 0 < remaining then
        let rest := get_embedding_loop oracle remaining (attempt + 1) (delay * 2)
        (rest.1, delay :: rest.2.1, rest.2.2 + 1)
      else (EmbResult.clientRaised code, [], 1)
    | CallOutcome.otherErr => (EmbResult.otherRaised, [], 1)

/-- `get_embedding` of the two Lambda files: 3 attempts, base delay 1. -/
def get_embedding (oracle : Nat → CallOutcome) : EmbResult × List Nat × Nat :=
  get_embedding_loop oracle 3 0 1

/-- Retry loop of `get_embedding(text, attempts=3, delay=1)` in
`ingest_from_file.py` (lines 42-67): identical control flow, but the
success path returns `normalizeFile` of the decoded result (every
fall-through returns the result unchanged). -/
def file_get_embedding_loop (oracle : Nat → CallOutcome) :
    Nat → Nat → Nat → EmbResult × List Nat × Nat
  | 0, _, _ => (EmbResult.ok none, [], 0)
  | remaining + 1, attempt, delay =>
    match oracle attempt with
    | CallOutcome.success raw => (EmbResult.ok (some (normalizeFile raw)), [], 1)
    | CallOutcome.clientErr code =>
      if 0 < remaining then
        let rest := file_get_embedding_loop oracle remaining (attempt + 1) (delay * 2)
        (rest.1, delay :: rest.2.1, rest.2.2 + 1)
      else (EmbResult.clientRaised code, [], 1)
    | CallOutcome.otherErr => (EmbResult.otherRaised, [], 1)

/-- `get_embedding` of `ingest_from_file.py` with configurable attempt
count and base delay (defaults `attempts=3, delay=1`). -/
def file_get_embedding (oracle : Nat → CallOutcome) (attempts delay : Nat) :
    EmbResult × List Nat × Nat :=
  file_get_embedding_loop oracle attempts 0 delay

/-- Outcome of one `put_vectors` / `query_vectors` remote call. -/
inductive PutOutcome where
  | ok
  | clientErr (code : String)
  | otherErr

/-- Result of the `put_vectors` retry loop inside `lambda_handler` of
`ingest_s3vectors.py` (lines 115-150): the record was stored (the loop
`break`s and the handler goes on to return 200), an early `return` of a
404 or 403 response, the last `ClientError` re-raised, or a
non-`ClientError` exception escaping the loop. -/
inductive PutRes where
  | stored
  | http404
  | http403
  | raisedClient (code : String)
  | escaped

/-- The `put_vectors` retry loop of `ingest_s3vectors.py` `lambda_handler`
(lines 115-150), entered with `attempts = 3`, `delay = 1`.  Each
`ClientError` is classified first: code `NotFoundException` returns the
404 response at once, codes `AccessDeniedException`/`AccessDenied` return
the 403 response at once; only other codes consume retry budget.
Returns the loop result, the sleeps performed and the attempts made.
`remaining` plays the same role as in `get_embedding_loop`. -/
def put_vectors_loop (oracle : Nat → PutOutcome) :
    Nat → Nat → Nat → PutRes × List Nat × Nat
  | 0, _, _ => (PutRes.stored, [], 0)
  | remaining + 1, attempt, delay =>
    match oracle attempt with
    | PutOutcome.ok => (PutRes.stored, [], 1)
    | PutOutcome.clientErr code =>
      if code = "NotFoundException" then (PutRes.http404, [], 1)
      else if code = "AccessDeniedException" ∨ code = "AccessDenied" then
        (PutRes.http403, [], 1)
      else if 0 < remaining then
        let rest := put_vectors_loop oracle remaining (attempt + 1) (delay * 2)
        (rest.1, delay :: rest.2.1, rest.2.2 + 1)
      else (PutRes.raisedClient code, [], 1)
    | PutOutcome.otherErr => (PutRes.escaped, [], 1)

/-- Result of `put_vector` in `ingest_from_file.py`: normal return,
a `RuntimeError` raised for a `NotFoundException`, the last `ClientError`
re-raised after the retry budget, or a non-`ClientError` exception. -/
inductive FilePutRes where
  | done
  | runtimeNotFound
  | raisedClient (code : String)
  | escaped

/-- `put_vector(vector_id, embedding, metadata, attempts=3, delay=1)` of
`ingest_from_file.py` (lines 70-92).  Unlike the Lambda loop it classifies
ONLY `NotFoundException` as fail-fast; every other `ClientError` code —
including `AccessDeniedException` — takes the retry branch. -/
def file_put_vector (oracle : Nat → PutOutcome) :
    Nat → Nat → Nat → FilePutRes × List Nat × Nat
  | 0, _, _ => (FilePutRes.done, [], 0)
  | remaining + 1, attempt, delay =>
    match oracle attempt with
    | PutOutcome.ok => (FilePutRes.done, [], 1)
    | PutOutcome.clientErr code =>
      if code = "NotFoundException" then (FilePutRes.runtimeNotFound, [], 1)
      else if 0 < remaining then
        let rest := file_put_vector oracle remaining (attempt + 1) (delay * 2)
        (rest.1, delay :: rest.2.1, rest.2.2 + 1)
      else (FilePutRes.raisedClient code, [], 1)
    | PutOutcome.otherErr => (FilePutRes.escaped, [], 1)

/-- Result of the single `query_vectors` call in `search_s3vectors.py`
`lambda_handler` (lines 116-138). -/
inductive QueryRes where
  | results
  | http404
  | http403
  | raisedClient (code : String)
  | escaped

/-- The `query_vectors` call of `search_s3vectors.py` (lines 116-138):
one remote attempt, no loop and no sleep; `NotFoundException` maps to the
404 response, `AccessDeniedException`/`AccessDenied` to the 403 response,
any other `ClientError` is re-raised. -/
def query_vectors_call (outcome : PutOutcome) : QueryRes :=
  match outcome with
  | PutOutcome.ok => QueryRes.results
  | PutOutcome.clientErr code =>
    if code = "NotFoundException" then QueryRes.http404
    else if code = "AccessDeniedException" ∨ code = "AccessDenied" then
      QueryRes.http403
    else QueryRes.raisedClient code
  | PutOutcome.otherErr => QueryRes.escaped

/-- Module-level initialisation of `ingest_s3vectors.py` (lines 13-24) and
`search_s3vectors.py` (lines 11-22).  The environment is a partial map
from variable name to value (`none` = absent).  `VECTOR_BUCKET` and
`INDEX_NAME` are read with defaults; `SAGEMAKER_ENDPOINT` is read without
one, so it can be the falsy `None`.  Each identifier is then checked for
Python falsiness (`None` or the empty string) in source order, raising a
`RuntimeError` at import time.  On success the triple
(bucket, endpoint, index) is the module state. -/
def module_init (env : String → Option String) :
    Except String (String × String × String) :=
  let vb := (env "VECTOR_BUCKET").getD "my-despicable-bucket12212025"
  let se := env "SAGEMAKER_ENDPOINT"
  let ix := (env "INDEX_NAME").getD "despme-index"
  if se = none ∨ se = some "" then
    Except.error "SAGEMAKER_ENDPOINT is not set; set it in Lambda env or .env"
  else if vb = "" then
    Except.error "VECTOR_BUCKET is not set; set it in Lambda env or .env"
  else if ix = "" then
    Except.error "INDEX_NAME is not set; set it in Lambda env or .env"
  else Except.ok (vb, se.getD "", ix)

/-- The `k` value taken from the request body of the search handler:
a JSON integer, a JSON float (Python `int()` truncates toward zero),
a string that parses as an integer, or anything on which `int()` raises. -/
inductive KVal where
  | int (n : Int)
  | float (q : Rat)
  | strInt (n : Int)
  | nonNumeric

/-- Python `int(k)`: identity on integers, truncation toward zero on
floats (`Int` division of numerator by denominator truncates), the parsed
value for integer-shaped strings, and an exception (`none`) otherwise. -/
def pyInt : KVal → Option Int
  | KVal.int n => some n
  | KVal.float q => some (q.num / (q.den : Int))
  | KVal.strInt n => some n
  | KVal.nonNumeric => none

/-- The `k` validation of `search_s3vectors.py` `lambda_handler`
(lines 85 and 97-105): `k = body.get('k', 5)`; then
`try: k = int(k) except: k = 5`; then `if k <= 0: k = 5`;
then `if k > 50: k = 50`.  The input is `none` when the body has no
`k` key. -/
def effectiveK (k : Option KVal) : Int :=
  let k0 : Int :=
    match k with
    | none => 5
    | some kv =>
      match pyInt kv with
      | some n => n
      | none => 5
  let k1 : Int := if k0 ≤ 0 then 5 else k0
  if k1 > 50 then 50 else k1

/-- One record returned by the store query: key, optional distance
(`vector.get('distance', 0)` defaults a missing one to 0) and metadata as
an association list.  Distances are modelled as rationals. -/
structure QueryVector where
  key : String
  distance : Option Rat
  metadata : List (String × String)

/-- The result view built for each record by `lambda_handler` of
`search_s3vectors.py` (lines 141-148): `id` is the key, `score` is
`vector.get('distance', 0)` — the raw distance, with no transformation —
and `text` is `vector.get('metadata', {}).get('text', '')`. -/
structure LambdaResult where
  id : String
  score : Rat
  text : String
  metadata : List (String × String)

/-- Per-record formatting of `search_s3vectors.py` (lines 141-148). -/
def formatLambdaResult (v : QueryVector) : LambdaResult :=
  { id := v.key
    score := v.distance.getD 0
    text := (v.metadata.lookup "text").getD ""
    metadata := v.metadata }

/-- Similarity computed by `search_despicable_me.py` (lines 71-72, and
again at lines 121 and 132): `similarity = 1 - vector.get('distance', 0)`. -/
def scriptSimilarity (v : QueryVector) : Rat :=
  1 - v.distance.getD 0

/-- The embedding validation of both Lambda handlers
(`ingest_s3vectors.py` line 103, `search_s3vectors.py` line 108):
`isinstance(embedding, list) and len(embedding) > 0`
(the source tests the negation and returns a 500 response). -/
def isValidEmbedding : Option JVal → Bool
  | some (JVal.list (_ :: _)) => true
  | _ => false

/-- Response of the ingest `lambda_handler`, abstracted to its status and
payload: 200 with the generated document id, 400 for a missing/falsy
`text`, 500 for an invalid embedding, 404 naming the index and bucket,
403 for access denied, and the generic 500 produced by the outer
`except Exception` for any exception that escapes. -/
inductive IngestResult where
  | ok200 (documentId : String)
  | missingText400
  | invalidEmbedding500
  | notFound404 (indexName bucketName : String)
  | accessDenied403
  | serverError500

/-- `lambda_handler` of `ingest_s3vectors.py` (lines 70-164), with the
body already parsed: `text` is the body's `text` field (`none` = key
absent; the empty string is also falsy), `metadata` handling is modelled
separately by `storedMetadata`.  The embedding call and the store upsert
are driven by their oracles; `vectorId` stands for the generated
`str(uuid.uuid4())`.  Exceptions that escape `get_embedding` or the put
loop are caught by the outer `except Exception` and become a 500. -/
def ingest_lambda_handler (bucket index : String) (text : Option String)
    (embOracle : Nat → CallOutcome) (putOracle : Nat → PutOutcome)
    (vectorId : String) : IngestResult :=
  match text with
  | none => IngestResult.missingText400
  | some t =>
    if t = "" then IngestResult.missingText400
    else
      match (get_embedding embOracle).1 with
      | EmbResult.ok emb =>
        if isValidEmbedding emb then
          match (put_vectors_loop putOracle 3 0 1).1 with
          | PutRes.stored => IngestResult.ok200 vectorId
          | PutRes.http404 => IngestResult.notFound404 index bucket
          | PutRes.http403 => IngestResult.accessDenied403
          | PutRes.raisedClient _ => IngestResult.serverError500
          | PutRes.escaped => IngestResult.serverError500
        else IngestResult.invalidEmbedding500
      | EmbResult.clientRaised _ => IngestResult.serverError500
      | EmbResult.otherRaised => IngestResult.serverError500

/-- Fate of one document in the batch loop of `ingest_from_file.py`
`ingest_docs` (lines 103-122): `get_embedding` raised, `get_embedding`
returned a non-list/empty value (the `continue` path), `put_vector`
raised, or the document was ingested. -/
inductive DocOutcome where
  | okDoc
  | embRaises
  | embInvalid
  | putRaises
deriving DecidableEq

/-- Loop body of `ingest_docs` (lines 103-122): the accumulator is
(successes, failures, documents processed so far, in order).
An invalid embedding increments `failures` and `continue`s; an exception
from `get_embedding` or `put_vector` lands in the `except` block and
increments `failures`; otherwise `successes` is incremented. -/
def ingestStep (acc : Nat × Nat × List DocOutcome) (d : DocOutcome) :
    Nat × Nat × List DocOutcome :=
  match d with
  | DocOutcome.embInvalid => (acc.1, acc.2.1 + 1, acc.2.2 ++ [d])
  | DocOutcome.embRaises => (acc.1, acc.2.1 + 1, acc.2.2 ++ [d])
  | DocOutcome.putRaises => (acc.1, acc.2.1 + 1, acc.2.2 ++ [d])
  | DocOutcome.okDoc => (acc.1 + 1, acc.2.1, acc.2.2 ++ [d])

/-- `ingest_docs` of `ingest_from_file.py` (lines 95-124): documents are
processed one at a time in input order with running success/failure
counters starting at 0; the final summary reports both counters. -/
def ingest_docs (docs : List DocOutcome) : Nat × Nat × List DocOutcome :=
  docs.foldl ingestStep (0, 0, [])

/-- One Python dict-entry assignment: the dict is a partial map and a
later assignment to the same key overwrites the earlier one. -/
def dictAssign (d : String → Option String) (p : String × String) :
    String → Option String :=
  fun q => if q = p.1 then some p.2 else d q

/-- The metadata literal built by `lambda_handler` of
`ingest_s3vectors.py` (lines 125-129) and by `ingest_document` of
`test_despicable_me_docs.py` (lines 64-68):
`{"text": text, "timestamp": ts, **metadata}` — the entries `text` and
`timestamp` are written first and the caller's metadata entries are
spread afterwards, each overwriting any entry of the same name. -/
def storedMetadata (text ts : String) (md : List (String × String)) :
    String → Option String :=
  md.foldl dictAssign
    (dictAssign (dictAssign (fun _ => none) ("text", text)) ("timestamp", ts))

/-- C1: for responses shaped as a triply nested, doubly nested, or flat
list of scalars, the file-script normalization returns the flat list in
all three cases, and the Lambda normalization does so for the two nested
shapes — but maps a flat list of scalars to Python `None` (its `else`
branch binds to the outer `isinstance` test), contradicting the claim
that a flat list is returned unchanged.  The sibling implementations and
the inline comment (`Return as-is if not nested`) show the flat case was
intended to return the list itself. -/
theorem c1_normalization_shapes (e : Int) (es : List Int) :
    normalizeFile (JVal.list (JVal.num e :: es.map JVal.num))
      = JVal.list (JVal.num e :: es.map JVal.num)
    ∧ normalizeFile (JVal.list [JVal.list (JVal.num e :: es.map JVal.num)])
      = JVal.list (JVal.num e :: es.map JVal.num)
    ∧ normalizeFile (JVal.list [JVal.list [JVal.list (JVal.num e :: es.map JVal.num)]])
      = JVal.list (JVal.num e :: es.map JVal.num)
    ∧ normalizeLambda (JVal.list [JVal.list (JVal.num e :: es.map JVal.num)])
      = some (JVal.list (JVal.num e :: es.map JVal.num))
    ∧ normalizeLambda (JVal.list [JVal.list [JVal.list (JVal.num e :: es.map JVal.num)]])
      = some (JVal.list (JVal.num e :: es.map JVal.num))
    ∧ normalizeLambda (JVal.list (JVal.num e :: es.map JVal.num)) = none :=
  ⟨rfl, rfl, rfl, rfl, rfl, rfl⟩

/-- C2 counterexample: a query record with distance 1/4 is exposed by the
search Lambda with `score = 1/4` — the raw distance — which is not equal
to `1 - 1/4`, refuting the claim that the exposed score equals `1 - d`. -/
theorem c2_score_is_distance_counterexample :
    (formatLambdaResult { key := "a", distance := some (1/4), metadata := [] }).score = 1/4
    ∧ ¬ ((formatLambdaResult { key := "a", distance := some (1/4), metadata := [] }).score
          = 1 - (1/4 : Rat)) := by
  constructor
  · rfl
  · intro h
    rw [show (formatLambdaResult { key := "a", distance := some (1/4), metadata := [] }).score
          = (1/4 : Rat) from rfl] at h
    norm_num at h

/-- C2 amended: the similarity printed by the search display script equals
exactly `1 - d` for a record with distance `d` (and `1 - 0` when the
distance field is missing), whereas the search Lambda handler exposes the
raw distance `d` itself (default 0) in its `score` field. -/
theorem c2_similarity_amended (k : String) (d : Rat) (md : List (String × String)) :
    scriptSimilarity { key := k, distance := some d, metadata := md } = 1 - d
    ∧ (formatLambdaResult { key := k, distance := some d, metadata := md }).score = d
    ∧ scriptSimilarity { key := k, distance := none, metadata := md } = 1 - 0
    ∧ (formatLambdaResult { key := k, distance := none, metadata := md }).score = 0 :=
  ⟨rfl, rfl, rfl, rfl⟩

/-- C6: for every `k` input — absent, integer, float, integer-shaped
string, or non-numeric — the effective topK used in the query lies in
`[1, 50]`, and the absent and non-numeric cases default to 5. -/
theorem c6_topk_clamped (k : Option KVal) :
    1 ≤ effectiveK k ∧ effectiveK k ≤ 50 ∧ effectiveK none = 5
    ∧ effectiveK (some KVal.nonNumeric) = 5 := by
  have h : 1 ≤ effectiveK k ∧ effectiveK k ≤ 50 := by
    rcases k with _ | kv
    · constructor <;> decide
    · rcases hp : pyInt kv with _ | n <;>
        · simp only [effectiveK, hp]
          constructor <;> split_ifs <;> omega
  exact ⟨h.1, h.2, by decide, by decide⟩

/-- C7 counterexample: the input `k = 100` is out of range but is clamped
to 50, not silently coerced to the default 5 — refuting the claim that
every out-of-range input coerces to 5. -/
theorem c7_topk_over_range_counterexample :
    effectiveK (some (KVal.int 100)) = 50 ∧ (50 : Int) ≠ 5 := by
  constructor <;> decide

/-- C7 amended: non-numeric, absent, or non-positive `k` inputs silently
coerce to the default 5 without erroring, while inputs above 50 are
clamped to 50 (not defaulted). -/
theorem c7_topk_default_amended :
    (∀ n : Int, n ≤ 0 → effectiveK (some (KVal.int n)) = 5)
    ∧ effectiveK (some KVal.nonNumeric) = 5
    ∧ effectiveK none = 5
    ∧ (∀ n : Int, 50 < n → effectiveK (some (KVal.int n)) = 50) := by
  refine ⟨?_, by decide, by decide, ?_⟩ <;>
    · intro n hn
      simp only [effectiveK, pyInt]
      split_ifs <;> omega

/-- Witness for the amended C7 theorem at concrete inputs. -/
theorem c7_topk_default_amended_witness :
    effectiveK (some (KVal.int (-3))) = 5 ∧ effectiveK (some (KVal.int 100)) = 50 :=
  ⟨c7_topk_default_amended.1 (-3) (by decide),
   c7_topk_default_amended.2.2.2 100 (by decide)⟩

/-- Environment holding only the inference endpoint name; the bucket and
index variables are absent. -/
def envOnlyEndpoint : String → Option String :=
  fun k => if k = "SAGEMAKER_ENDPOINT" then some "despme--embedding-endpoint" else none

/-- C4 counterexample: with `VECTOR_BUCKET` and `INDEX_NAME` both absent
from the environment, module initialisation of the two Lambda files
succeeds anyway, filling in the hard-coded defaults — refuting the claim
that the absence of any of the three identifiers prevents the component
from initializing. -/
theorem c4_absent_identifiers_counterexample :
    envOnlyEndpoint "VECTOR_BUCKET" = none
    ∧ envOnlyEndpoint "INDEX_NAME" = none
    ∧ module_init envOnlyEndpoint
        = Except.ok ("my-despicable-bucket12212025", "despme--embedding-endpoint",
            "despme-index") := by
  refine ⟨?_, ?_, ?_⟩ <;> rfl

/-- C4 amended: only the inference endpoint identifier is checked for
absence — a missing (or empty) `SAGEMAKER_ENDPOINT` raises at import time;
`VECTOR_BUCKET` and `INDEX_NAME` fall back to built-in defaults when
absent, and only an explicitly empty value for them fails the startup
check. -/
theorem c4_startup_amended (env : String → Option String) :
    (env "SAGEMAKER_ENDPOINT" = none ∨ env "SAGEMAKER_ENDPOINT" = some "" →
      module_init env
        = Except.error "SAGEMAKER_ENDPOINT is not set; set it in Lambda env or .env")
    ∧ (env "VECTOR_BUCKET" = some "" →
        ¬ (env "SAGEMAKER_ENDPOINT" = none ∨ env "SAGEMAKER_ENDPOINT" = some "") →
        module_init env
          = Except.error "VECTOR_BUCKET is not set; set it in Lambda env or .env")
    ∧ (env "INDEX_NAME" = some "" →
        ¬ (env "SAGEMAKER_ENDPOINT" = none ∨ env "SAGEMAKER_ENDPOINT" = some "") →
        ¬ env "VECTOR_BUCKET" = some "" →
        module_init env
          = Except.error "INDEX_NAME is not set; set it in Lambda env or .env")
    ∧ (env "VECTOR_BUCKET" = none → env "INDEX_NAME" = none →
        ¬ (env "SAGEMAKER_ENDPOINT" = none ∨ env "SAGEMAKER_ENDPOINT" = some "") →
        module_init env
          = Except.ok ("my-despicable-bucket12212025",
              (env "SAGEMAKER_ENDPOINT").getD "", "despme-index")) := by
  refine ⟨?_, ?_, ?_, ?_⟩
  · intro h
    simp only [module_init]
    rw [if_pos h]
  · intro hvb hse
    simp only [module_init]
    rw [if_neg hse, if_pos]
    simp [hvb]
  · intro hix hse hvb
    simp only [module_init]
    rw [if_neg hse, if_neg, if_pos]
    · simp [hix]
    · rcases hv : env "VECTOR_BUCKET" with _ | v
      · simp [hv]
      · simp only [hv, Option.getD_some]
        intro hveq
        exact hvb (by rw [hv, hveq])
  · intro hvb hix hse
    simp only [module_init]
    rw [if_neg hse, if_neg (by simp [hvb]), if_neg (by simp [hix]), hvb, hix]
    rfl

/-- Witness for the amended C4 theorem: an empty environment fails the
endpoint check at import time. -/
theorem c4_startup_amended_witness :
    module_init (fun _ => none)
      = Except.error "SAGEMAKER_ENDPOINT is not set; set it in Lambda env or .env" :=
  (c4_startup_amended (fun _ => none)).1 (Or.inl rfl)

/-- A first-attempt `NotFoundException` makes the Lambda put loop return
the 404 response after exactly one attempt, with no sleep. -/
theorem putLoop_first_notFound (po : Nat → PutOutcome)
    (h : po 0 = PutOutcome.clientErr "NotFoundException") :
    put_vectors_loop po 3 0 1 = (PutRes.http404, [], 1) := by
  simp [put_vectors_loop, h]

/-- A first-attempt access-denied fault (either code) makes the Lambda put
loop return the 403 response after exactly one attempt, with no sleep. -/
theorem putLoop_first_accessDenied (po : Nat → PutOutcome)
    (h : po 0 = PutOutcome.clientErr "AccessDeniedException"
      ∨ po 0 = PutOutcome.clientErr "AccessDenied") :
    put_vectors_loop po 3 0 1 = (PutRes.http403, [], 1) := by
  rcases h with h | h <;> simp [put_vectors_loop, h]

/-- A first-attempt success makes the Lambda put loop store the record in
one attempt. -/
theorem putLoop_first_ok (po : Nat → PutOutcome) (h : po 0 = PutOutcome.ok) :
    put_vectors_loop po 3 0 1 = (PutRes.stored, [], 1) := by
  simp [put_vectors_loop, h]

/-- A first-attempt `NotFoundException` makes `put_vector` of
`ingest_from_file.py` raise its `RuntimeError` after exactly one attempt,
with no sleep. -/
theorem filePut_first_notFound (po : Nat → PutOutcome)
    (h : po 0 = PutOutcome.clientErr "NotFoundException") :
    file_put_vector po 3 0 1 = (FilePutRes.runtimeNotFound, [], 1) := by
  simp [file_put_vector, h]

/-- `put_vector` of `ingest_from_file.py` treats `AccessDeniedException`
as retryable: when every attempt is denied it makes all 3 attempts,
sleeping 1 and then 2, before re-raising. -/
theorem filePut_accessDenied_retries (po : Nat → PutOutcome)
    (h : ∀ i, po i = PutOutcome.clientErr "AccessDeniedException") :
    file_put_vector po 3 0 1
      = (FilePutRes.raisedClient "AccessDeniedException", [1, 2], 3) := by
  simp [file_put_vector, h 0, h 1, h 2]

/-- C3 counterexample: an upsert through `put_vector` of
`ingest_from_file.py` whose store fault is classified access-denied makes
3 remote attempts with sleeps of 1 and 2 time-units before surfacing the
error — refuting the claim that such faults cause exactly one attempt
with no sleeping. -/
theorem c3_access_denied_retried_counterexample :
    file_put_vector (fun _ => PutOutcome.clientErr "AccessDeniedException") 3 0 1
      = (FilePutRes.raisedClient "AccessDeniedException", [1, 2], 3)
    ∧ (3 : Nat) ≠ 1 ∧ ([1, 2] : List Nat) ≠ [] := by
  refine ⟨filePut_accessDenied_retries _ (fun _ => rfl), by decide, by decide⟩

/-- C3 amended: in the Lambda handlers, not-found and access-denied store
faults surface after exactly one remote attempt with no sleep (the search
query makes a single attempt by construction); in the batch-file upsert
helper only not-found faults fail fast — an access-denied fault there is
treated as retryable and consumes the whole retry budget (3 attempts,
sleeps 1 and 2) before the error surfaces. -/
theorem c3_fail_fast_amended :
    (∀ po : Nat → PutOutcome, po 0 = PutOutcome.clientErr "NotFoundException" →
      put_vectors_loop po 3 0 1 = (PutRes.http404, [], 1))
    ∧ (∀ po : Nat → PutOutcome,
        po 0 = PutOutcome.clientErr "AccessDeniedException"
          ∨ po 0 = PutOutcome.clientErr "AccessDenied" →
        put_vectors_loop po 3 0 1 = (PutRes.http403, [], 1))
    ∧ (∀ po : Nat → PutOutcome, po 0 = PutOutcome.clientErr "NotFoundException" →
        file_put_vector po 3 0 1 = (FilePutRes.runtimeNotFound, [], 1))
    ∧ query_vectors_call (PutOutcome.clientErr "NotFoundException") = QueryRes.http404
    ∧ query_vectors_call (PutOutcome.clientErr "AccessDeniedException") = QueryRes.http403
    ∧ query_vectors_call (PutOutcome.clientErr "AccessDenied") = QueryRes.http403
    ∧ (∀ po : Nat → PutOutcome,
        (∀ i, po i = PutOutcome.clientErr "AccessDeniedException") →
        file_put_vector po 3 0 1
          = (FilePutRes.raisedClient "AccessDeniedException", [1, 2], 3)) :=
  ⟨putLoop_first_notFound, putLoop_first_accessDenied, filePut_first_notFound,
   rfl, rfl, rfl, filePut_accessDenied_retries⟩

/-- Witness for the amended C3 theorem at concrete oracles. -/
theorem c3_fail_fast_amended_witness :
    put_vectors_loop (fun _ => PutOutcome.clientErr "AccessDenied") 3 0 1
      = (PutRes.http403, [], 1)
    ∧ put_vectors_loop (fun _ => PutOutcome.clientErr "NotFoundException") 3 0 1
      = (PutRes.http404, [], 1) :=
  ⟨c3_fail_fast_amended.2.1 (fun _ => PutOutcome.clientErr "AccessDenied") (Or.inr rfl),
   c3_fail_fast_amended.1 (fun _ => PutOutcome.clientErr "NotFoundException") rfl⟩

/-- C5: a remote embedding call that raises a retryable (`ClientError`)
fault exactly N times and then succeeds performs exactly N+1 attempts and
returns the normalized success whenever N+1 is at most the 3 configured
attempts, sleeping the exponential backoff delays `base * 2^i` between
attempts (the Lambda versions fix `base = 1`, giving 1, 2, ...); when all
3 attempts fail, the loop makes exactly 3 attempts, sleeps 1 and 2 (or
`base` and `base * 2`), and propagates the final error. -/
theorem c5_retry_backoff (N : Nat) (hN : N + 1 ≤ 3) (base : Nat)
    (oracle : Nat → CallOutcome) (raw : JVal) (codes : Nat → String)
    (hfail : ∀ i, i < N → oracle i = CallOutcome.clientErr (codes i))
    (hsucc : oracle N = CallOutcome.success raw)
    (oracle2 : Nat → CallOutcome)
    (hfail2 : ∀ i, i < 3 → oracle2 i = CallOutcome.clientErr (codes i)) :
    get_embedding oracle
      = (EmbResult.ok (normalizeLambda raw), (List.range N).map (fun i => 2 ^ i), N + 1)
    ∧ get_embedding oracle2 = (EmbResult.clientRaised (codes 2), [1, 2], 3)
    ∧ file_get_embedding oracle 3 base
      = (EmbResult.ok (some (normalizeFile raw)),
          (List.range N).map (fun i => base * 2 ^ i), N + 1)
    ∧ file_get_embedding oracle2 3 base
      = (EmbResult.clientRaised (codes 2), [base, base * 2], 3) := by
  have h20 := hfail2 0 (by omega)
  have h21 := hfail2 1 (by omega)
  have h22 := hfail2 2 (by omega)
  have hN2 : N ≤ 2 := by omega
  refine ⟨?_, ?_, ?_, ?_⟩
  · interval_cases N
    · simp [get_embedding, get_embedding_loop, hsucc]
    · simp [get_embedding, get_embedding_loop, hfail 0 (by omega), hsucc,
        List.range_succ]
    · simp [get_embedding, get_embedding_loop, hfail 0 (by omega),
        hfail 1 (by omega), hsucc, List.range_succ]
  · simp [get_embedding, get_embedding_loop, h20, h21, h22]
  · interval_cases N
    · simp [file_get_embedding, file_get_embedding_loop, hsucc]
    · simp [file_get_embedding, file_get_embedding_loop, hfail 0 (by omega),
        hsucc, List.range_succ]
    · simp [file_get_embedding, file_get_embedding_loop, hfail 0 (by omega),
        hfail 1 (by omega), hsucc, List.range_succ, Nat.mul_assoc]
  · simp [file_get_embedding, file_get_embedding_loop, h20, h21, h22]

/-- Witness for C5: one throttling failure followed by a success yields
2 attempts, one sleep of 1 time-unit, and the normalized embedding. -/
theorem c5_retry_backoff_witness :
    get_embedding (fun i => if i = 0 then CallOutcome.clientErr "ThrottlingException"
        else CallOutcome.success (JVal.list [JVal.list [JVal.num 1]]))
      = (EmbResult.ok (some (JVal.list [JVal.num 1])), [1], 2) := by
  have h := (c5_retry_backoff 1 (by omega) 1
    (fun i => if i = 0 then CallOutcome.clientErr "ThrottlingException"
      else CallOutcome.success (JVal.list [JVal.list [JVal.num 1]]))
    (JVal.list [JVal.list [JVal.num 1]])
    (fun _ => "ThrottlingException")
    (fun i hi => by interval_cases i; rfl)
    rfl
    (fun _ => CallOutcome.clientErr "ThrottlingException")
    (fun i _ => rfl)).1
  simpa using h

/-- C8: the single-document ingest handler maps each failure class to its
status: missing (or empty, also falsy) text gives 400; an embedding that
is not a non-empty list gives 500; a store not-found fault gives 404
naming the index and the bucket; an access-denied fault gives 403; an
exception escaping the embedding call gives the generic 500; and a 200
with the generated document id is returned exactly when the text is
present, the embedding is valid and the store upsert succeeded. -/
theorem c8_status_mapping (bucket index vectorId t : String) (ht : t ≠ "")
    (eo : Nat → CallOutcome) (po : Nat → PutOutcome) :
    ingest_lambda_handler bucket index none eo po vectorId
      = IngestResult.missingText400
    ∧ ingest_lambda_handler bucket index (some "") eo po vectorId
      = IngestResult.missingText400
    ∧ (∀ emb, (get_embedding eo).1 = EmbResult.ok emb → isValidEmbedding emb = false →
        ingest_lambda_handler bucket index (some t) eo po vectorId
          = IngestResult.invalidEmbedding500)
    ∧ (∀ code, (get_embedding eo).1 = EmbResult.clientRaised code →
        ingest_lambda_handler bucket index (some t) eo po vectorId
          = IngestResult.serverError500)
    ∧ ((get_embedding eo).1 = EmbResult.otherRaised →
        ingest_lambda_handler bucket index (some t) eo po vectorId
          = IngestResult.serverError500)
    ∧ (∀ emb, (get_embedding eo).1 = EmbResult.ok emb → isValidEmbedding emb = true →
        ((po 0 = PutOutcome.clientErr "NotFoundException" →
            ingest_lambda_handler bucket index (some t) eo po vectorId
              = IngestResult.notFound404 index bucket)
        ∧ (po 0 = PutOutcome.clientErr "AccessDeniedException"
              ∨ po 0 = PutOutcome.clientErr "AccessDenied" →
            ingest_lambda_handler bucket index (some t) eo po vectorId
              = IngestResult.accessDenied403)
        ∧ (po 0 = PutOutcome.ok →
            ingest_lambda_handler bucket index (some t) eo po vectorId
              = IngestResult.ok200 vectorId)))
    ∧ (∀ text d, ingest_lambda_handler bucket index text eo po vectorId
          = IngestResult.ok200 d →
        d = vectorId
        ∧ (∃ s, text = some s ∧ s ≠ "")
        ∧ (∃ emb, (get_embedding eo).1 = EmbResult.ok emb ∧ isValidEmbedding emb = true)
        ∧ (put_vectors_loop po 3 0 1).1 = PutRes.stored) := by
  refine ⟨rfl, by simp [ingest_lambda_handler], ?_, ?_, ?_, ?_, ?_⟩
  · intro emb hemb hval
    simp only [ingest_lambda_handler, if_neg ht]
    rw [hemb]
    simp [hval]
  · intro code hemb
    simp only [ingest_lambda_handler, if_neg ht]
    rw [hemb]
  · intro hemb
    simp only [ingest_lambda_handler, if_neg ht]
    rw [hemb]
  · intro emb hemb hval
    refine ⟨?_, ?_, ?_⟩
    · intro hp
      simp only [ingest_lambda_handler, if_neg ht]
      rw [hemb]
      simp only [hval, if_true]
      rw [putLoop_first_notFound po hp]
    · intro hp
      simp only [ingest_lambda_handler, if_neg ht]
      rw [hemb]
      simp only [hval, if_true]
      rw [putLoop_first_accessDenied po hp]
    · intro hp
      simp only [ingest_lambda_handler, if_neg ht]
      rw [hemb]
      simp only [hval, if_true]
      rw [putLoop_first_ok po hp]
  · intro text d hres
    rcases text with _ | s
    · simp [ingest_lambda_handler] at hres
    · by_cases hs : s = ""
      · subst hs
        simp [ingest_lambda_handler] at hres
      · simp only [ingest_lambda_handler, if_neg hs] at hres
        split at hres
        next emb heq =>
          by_cases hv : isValidEmbedding emb = true
          · rw [if_pos hv] at hres
            split at hres
            next hp =>
              exact ⟨(IngestResult.ok200.inj hres).symm, ⟨s, rfl, hs⟩,
                ⟨emb, heq, hv⟩, hp⟩
            next hp => simp at hres
            next hp => simp at hres
            next code hp => simp at hres
            next hp => simp at hres
          · rw [if_neg hv] at hres
            simp at hres
        next code heq => simp at hres
        next heq => simp at hres

/-- Witness for C8 at concrete oracles: a successful embed and store give
a 200 with the generated document id. -/
theorem c8_status_mapping_witness :
    ingest_lambda_handler "bucket" "index" (some "Gru is a supervillain")
      (fun _ => CallOutcome.success (JVal.list [JVal.list [JVal.num 1]]))
      (fun _ => PutOutcome.ok) "doc-1" = IngestResult.ok200 "doc-1" :=
  ((c8_status_mapping "bucket" "index" "doc-1" "Gru is a supervillain" (by decide)
      (fun _ => CallOutcome.success (JVal.list [JVal.list [JVal.num 1]]))
      (fun _ => PutOutcome.ok)).2.2.2.2.2.1
    (some (JVal.list [JVal.num 1])) rfl rfl).2.2 rfl

/-- Unrolling of the `ingest_docs` fold from an arbitrary accumulator:
the counters advance by the number of succeeding / failing documents and
the processing log extends by the documents in input order. -/
theorem ingest_docs_foldl (docs : List DocOutcome) :
    ∀ (s f : Nat) (log : List DocOutcome),
      docs.foldl ingestStep (s, f, log)
        = (s + docs.countP (fun d => d == DocOutcome.okDoc),
           f + docs.countP (fun d => !(d == DocOutcome.okDoc)),
           log ++ docs) := by
  induction docs with
  | nil => intro s f log; simp
  | cons d rest ih =>
    intro s f log
    rw [List.foldl_cons]
    cases d <;>
      simp [ingestStep, ih, List.countP_cons, Nat.add_assoc, Nat.add_comm]

/-- Documents that neither fail at the store nor succeed are exactly the
embedding failures, so the two counters partition the batch. -/
theorem countOk_add_countFail (docs : List DocOutcome)
    (h : ∀ d ∈ docs, d ≠ DocOutcome.putRaises) :
    docs.countP (fun d => d == DocOutcome.okDoc)
      + docs.countP (fun d => d == DocOutcome.embRaises || d == DocOutcome.embInvalid)
      = docs.length := by
  induction docs with
  | nil => simp
  | cons d rest ih =>
    have hr : ∀ x ∈ rest, x ≠ DocOutcome.putRaises :=
      fun x hx => h x (List.mem_cons_of_mem _ hx)
    have hih := ih hr
    cases d
    · simp only [List.countP_cons]
      simp
      omega
    · simp only [List.countP_cons]
      simp
      omega
    · simp only [List.countP_cons]
      simp
      omega
    · exact absurd rfl (h DocOutcome.putRaises (List.mem_cons_self _ _))

/-- C9: for a batch of N documents of which M fail at the embedding call
or at embedding validation (and none fail at the store), `ingest_docs`
processes every document in input order (the processing log equals the
input list), continues past each failure, and its final summary reports
exactly N - M successes and M failures. -/
theorem c9_batch_summary (docs : List DocOutcome)
    (h : ∀ d ∈ docs, d ≠ DocOutcome.putRaises) :
    (ingest_docs docs).1
      = docs.length
        - docs.countP (fun d => d == DocOutcome.embRaises || d == DocOutcome.embInvalid)
    ∧ (ingest_docs docs).2.1
      = docs.countP (fun d => d == DocOutcome.embRaises || d == DocOutcome.embInvalid)
    ∧ (ingest_docs docs).2.2 = docs := by
  have hfold := ingest_docs_foldl docs 0 0 []
  have hcong : docs.countP (fun d => !(d == DocOutcome.okDoc))
      = docs.countP (fun d => d == DocOutcome.embRaises || d == DocOutcome.embInvalid) := by
    apply List.countP_congr
    intro d hd
    cases d
    · simp
    · simp
    · simp
    · exact absurd rfl (h _ hd)
  have hlen := countOk_add_countFail docs h
  unfold ingest_docs
  rw [hfold]
  refine ⟨?_, ?_, ?_⟩
  · simp only [Nat.zero_add]
    omega
  · simp only [Nat.zero_add]
    exact hcong
  · simp

/-- Witness for C9: a batch of four documents of which two fail embedding
reports two successes and two failures and processes all four in order. -/
theorem c9_batch_summary_witness :
    (ingest_docs [DocOutcome.okDoc, DocOutcome.embRaises, DocOutcome.embInvalid,
        DocOutcome.okDoc]).1 = 2
    ∧ (ingest_docs [DocOutcome.okDoc, DocOutcome.embRaises, DocOutcome.embInvalid,
        DocOutcome.okDoc]).2.1 = 2
    ∧ (ingest_docs [DocOutcome.okDoc, DocOutcome.embRaises, DocOutcome.embInvalid,
        DocOutcome.okDoc]).2.2
      = [DocOutcome.okDoc, DocOutcome.embRaises, DocOutcome.embInvalid,
         DocOutcome.okDoc] := by
  have h := c9_batch_summary
    [DocOutcome.okDoc, DocOutcome.embRaises, DocOutcome.embInvalid, DocOutcome.okDoc]
    (by intro d hd; fin_cases hd <;> decide)
  simpa using h

/-- Spreading entries none of which use key `k` leaves the dict value at
`k` unchanged. -/
theorem foldl_dictAssign_not_mem (md : List (String × String)) :
    ∀ (d : String → Option String) (k : String),
      (∀ p ∈ md, p.1 ≠ k) → md.foldl dictAssign d k = d k := by
  induction md with
  | nil => intro d k _; rfl
  | cons p rest ih =>
    intro d k h
    rw [List.foldl_cons, ih _ k (fun q hq => h q (List.mem_cons_of_mem _ hq))]
    have hp : p.1 ≠ k := h p (List.mem_cons_self _ _)
    simp only [dictAssign]
    rw [if_neg (fun hh => hp hh.symm)]

/-- Spreading a dict (keys pairwise distinct) whose entry at `k` is `v`
makes the resulting dict map `k` to `v`, whatever was there before. -/
theorem foldl_dictAssign_lookup (md : List (String × String)) :
    ∀ (d : String → Option String) (k v : String),
      (md.map Prod.fst).Nodup → md.lookup k = some v →
      md.foldl dictAssign d k = some v := by
  induction md with
  | nil => intro d k v _ hv; simp at hv
  | cons p rest ih =>
    intro d k v hnd hv
    rcases p with ⟨a, b⟩
    rw [List.map_cons, List.nodup_cons] at hnd
    rw [List.foldl_cons]
    by_cases hk : k = a
    · subst hk
      have hb : b = v := by
        simpa [List.lookup] using hv
      subst hb
      have hmem : ∀ q ∈ rest, q.1 ≠ k := by
        intro q hq hqk
        apply hnd.1
        rw [← hqk]
        exact List.mem_map.mpr ⟨q, hq, rfl⟩
      rw [foldl_dictAssign_not_mem rest _ k hmem]
      simp [dictAssign]
    · have hv2 : rest.lookup k = some v := by
        simpa [List.lookup, beq_false_of_ne hk] using hv
      exact ih _ k v hnd.2 hv2

/-- C10: the caller-supplied metadata is spread last into the stored
record metadata, after the injected `text` and `timestamp` entries, so a
caller-supplied entry named `text` or `timestamp` silently overrides the
injected original text or ingestion timestamp; when the caller supplies
neither name, the injected values are the ones stored. -/
theorem c10_metadata_spread_override (text ts v w : String)
    (md : List (String × String)) (hnd : (md.map Prod.fst).Nodup) :
    (md.lookup "text" = some v → storedMetadata text ts md "text" = some v)
    ∧ (md.lookup "timestamp" = some w → storedMetadata text ts md "timestamp" = some w)
    ∧ ((∀ p ∈ md, p.1 ≠ "text") → storedMetadata text ts md "text" = some text)
    ∧ ((∀ p ∈ md, p.1 ≠ "timestamp") → storedMetadata text ts md "timestamp" = some ts) := by
  refine ⟨?_, ?_, ?_, ?_⟩
  · intro hv
    exact foldl_dictAssign_lookup md _ "text" v hnd hv
  · intro hw
    exact foldl_dictAssign_lookup md _ "timestamp" w hnd hw
  · intro habs
    rw [storedMetadata, foldl_dictAssign_not_mem md _ "text" habs]
    rfl
  · intro habs
    rw [storedMetadata, foldl_dictAssign_not_mem md _ "timestamp" habs]
    rfl

/-- Witness for C10: a request whose metadata carries its own `text` and
`timestamp` entries ends up stored with the caller values, not the
injected ones. -/
theorem c10_metadata_spread_override_witness :
    storedMetadata "original text" "2025-01-01T00:00:00"
      [("text", "caller text"), ("timestamp", "caller time")] "text"
      = some "caller text"
    ∧ storedMetadata "original text" "2025-01-01T00:00:00"
      [("text", "caller text"), ("timestamp", "caller time")] "timestamp"
      = some "caller time" :=
  ⟨(c10_metadata_spread_override "original text" "2025-01-01T00:00:00"
      "caller text" "caller time"
      [("text", "caller text"), ("timestamp", "caller time")] (by decide)).1 rfl,
   (c10_metadata_spread_override "original text" "2025-01-01T00:00:00"
      "caller text" "caller time"
      [("text", "caller text"), ("timestamp", "caller time")] (by decide)).2.1 rfl⟩
